import Mathlib

/-!
Verification development for the `cfrt` package (Cloudflare round tripper).

The Go source (`cfrt/roundtripper.go`) is shallowly embedded below:

* Go `regexp` patterns (RE2 with leftmost-first, Perl-like semantics) are
  embedded as a small executable backtracking matcher over `List Char`;
  every quantifier used by the source applies to a single-character class,
  so the matcher is structurally recursive.
* `net/http` data (requests, responses, headers, the cookie jar) is
  embedded as plain records and association lists; headers keep the Go
  semantics of one entry per (canonical) key with a list of values.
* `float64` results of the otto evaluator are modelled as rationals and
  `fmt.Sprintf("%.10f", x)` as exact decimal rendering with ten fractional
  digits.
* The upstream transport and the otto virtual machine are external
  collaborators; they are modelled by oracles giving the outcome of each
  interaction, and `RoundTrip` is a pure function of the oracle that also
  reports how often the upstream transport was invoked and the final
  cookie jar, so that frame and counting properties can be stated.
-/

set_option maxRecDepth 10000

namespace Cfrt

/-! ## Basic character/string utilities -/

/-- Single-quote character (ASCII 39). -/
def sqChar : Char := Char.ofNat 39

/-- Backslash character (ASCII 92). -/
def bsChar : Char := Char.ofNat 92

/-- Is `pat` a substring of `s` (list form)? -/
def containsSubL (pat : List Char) : List Char → Bool
  | [] => pat.isPrefixOf []
  | c :: t => pat.isPrefixOf (c :: t) || containsSubL pat t

/-- Is `pat` a substring of `s`? Models Go `strings.Contains`. -/
def containsSub (s pat : String) : Bool := containsSubL pat.data s.data

/-- Does `s` start with `pre`? Models Go `strings.HasPrefix`. -/
def hasPref (s pre : String) : Bool := pre.data.isPrefixOf s.data

/-- Decimal digits of a natural number, most significant first (fuelled). -/
def natToCharsAux : Nat → Nat → List Char → List Char
  | 0, _, acc => acc
  | fuel + 1, n, acc =>
    let d := Char.ofNat (48 + n % 10)
    if n < 10 then d :: acc else natToCharsAux fuel (n / 10) (d :: acc)

/-- Decimal rendering of a natural number; models Go `strconv.Itoa` on
naturals. -/
def natToChars (n : Nat) : List Char := natToCharsAux (n + 1) n []

/-- UTF-8 byte length of one character (Go strings are byte oriented, so
`len(s)` counts UTF-8 bytes). -/
def charUtf8Size (c : Char) : Nat :=
  let n := c.toNat
  if n < 0x80 then 1 else if n < 0x800 then 2 else if n < 0x10000 then 3 else 4

/-- Go `len(s)` on a string: its UTF-8 byte count. -/
def goLen (s : String) : Nat := s.data.foldl (fun n c => n + charUtf8Size c) 0

/-- The UTF-8 bytes of one character. -/
def utf8Bytes (c : Char) : List Nat :=
  let n := c.toNat
  if n < 0x80 then [n]
  else if n < 0x800 then [0xC0 + n / 64, 0x80 + n % 64]
  else if n < 0x10000 then [0xE0 + n / 4096, 0x80 + (n / 64) % 64, 0x80 + n % 64]
  else [0xF0 + n / 262144, 0x80 + (n / 4096) % 64, 0x80 + (n / 64) % 64, 0x80 + n % 64]

/-- Lexicographic comparison of character lists (byte order on ASCII). -/
def charsLE : List Char → List Char → Bool
  | [], _ => true
  | _ :: _, [] => false
  | a :: as, b :: bs =>
    if a.toNat < b.toNat then true
    else if b.toNat < a.toNat then false
    else charsLE as bs

/-! ## Character classes used by the Go regular expressions -/

/-- Go regexp `\s`: `[\t\n\f\r ]`. -/
def isSpaceC (c : Char) : Bool :=
  c = ' ' || c = '\t' || c = '\n' || c = '\x0c' || c = '\r'

/-- Go regexp `\w`: `[0-9A-Za-z_]`. -/
def isWordC (c : Char) : Bool :=
  (c ≥ '0' && c ≤ '9') || (c ≥ 'A' && c ≤ 'Z') || (c ≥ 'a' && c ≤ 'z') || c = '_'

/-- Go regexp `.` (no `s` flag): any character except newline. -/
def isDotC (c : Char) : Bool := c ≠ '\n'

/-- Go regexp `[\s\S]`: any character. -/
def isAnyC (_ : Char) : Bool := true

/-- Go regexp `[a-z]`. -/
def isLowerC (c : Char) : Bool := c ≥ 'a' && c ≤ 'z'

/-- Go regexp class of newline, backslash and single quote. -/
def isStripC (c : Char) : Bool := c = '\n' || c = bsChar || c = sqChar

/-! ## A small regex engine

Each regexp in the source uses quantifiers only on single-character
classes and at most one capturing group, which the AST below mirrors.
The matcher implements the RE2 leftmost-first (Perl backtracking)
semantics: alternation prefers the left branch, greedy quantifiers the
longest repetition, lazy quantifiers the shortest, and the overall match
is the first success scanning start positions left to right. -/

inductive RE where
  /-- literal character sequence -/
  | lit (s : List Char)
  /-- single character of a class -/
  | cls (p : Char → Bool)
  /-- greedy `p?`, single-char class (for `\r?`) -/
  | optC (p : Char → Bool)
  /-- greedy `p+` -/
  | plusG (p : Char → Bool)
  /-- lazy `p+?` -/
  | plusL (p : Char → Bool)
  /-- greedy `p\x7bmin,\x7d` -/
  | repG (p : Char → Bool) (min : Nat)
  /-- alternation, left preferred -/
  | alt2 (a b : RE)
  /-- the (single) capturing group -/
  | grp (a : RE)
  /-- sequence -/
  | seq (a b : RE)

/-- Length of the maximal prefix of `s` whose characters satisfy `p`. -/
def runlen (p : Char → Bool) : List Char → Nat
  | [] => 0
  | c :: t => if p c then runlen p t + 1 else 0

/-- Matcher outcome: remaining input after the whole match, and the text
of the capturing group if one was traversed. -/
abbrev MOut := List Char × Option (List Char)

/-- Greedy repetition: try consuming `n, n-1, …, lo` characters of `s`
(in that order) before the continuation. -/
def tryDown (k : List Char → Option MOut) (s : List Char) (lo : Nat) : Nat → Option MOut
  | 0 => if lo = 0 then k s else none
  | n + 1 =>
    if n + 1 < lo then none
    else (k (s.drop (n + 1))) <|> tryDown k s lo n

/-- Lazy repetition: try consuming `n, n+1, …` characters of `s` (in that
order, `fuel` attempts) before the continuation. -/
def tryUpAux (k : List Char → Option MOut) (s : List Char) : Nat → Nat → Option MOut
  | _, 0 => none
  | n, fuel + 1 => (k (s.drop n)) <|> tryUpAux k s (n + 1) fuel

/-- Backtracking matcher in continuation-passing style. `mat re s k`
attempts to match `re` against a prefix of `s` and passes the rest to
`k`; alternatives are tried in leftmost-first order. -/
def mat : RE → List Char → (List Char → Option MOut) → Option MOut
  | .lit l, s, k => if l.isPrefixOf s then k (s.drop l.length) else none
  | .cls p, s, k =>
    match s with
    | [] => none
    | c :: t => if p c then k t else none
  | .optC p, s, k =>
    match s with
    | [] => k []
    | c :: t => if p c then (k t) <|> k (c :: t) else k (c :: t)
  | .plusG p, s, k => tryDown k s 1 (runlen p s)
  | .plusL p, s, k => tryUpAux k s 1 (runlen p s)
  | .repG p m, s, k => tryDown k s m (runlen p s)
  | .alt2 a b, s, k => (mat a s k) <|> (mat b s k)
  | .grp a, s, k =>
    mat a s (fun s2 => (k s2).map (fun out => (out.1, some (s.take (s.length - s2.length)))))
  | .seq a b, s, k => mat a s (fun s2 => mat b s2 k)

/-- Match `re` against a prefix of `s`: `(matched length, capture)`. -/
def matchHere (re : RE) (s : List Char) : Option (Nat × Option (List Char)) :=
  (mat re s (fun rest => some (rest, none))).map
    (fun out => (s.length - out.1.length, out.2))

/-- Leftmost match: scan start positions left to right. Returns
`(start, length, capture)`. -/
def reFindAux (re : RE) : List Char → Nat → Option (Nat × Nat × Option (List Char))
  | s, i =>
    match matchHere re s with
    | some (len, cap) => some (i, len, cap)
    | none =>
      match s with
      | [] => none
      | _ :: t => reFindAux re t (i + 1)

/-- Leftmost match of `re` in `s`. Models `regexp.FindStringSubmatch`
(success/failure and group 1). -/
def reFind (re : RE) (s : List Char) : Option (Nat × Nat × Option (List Char)) :=
  reFindAux re s 0

/-- Group 1 of the leftmost match, as a string; `none` when there is no
match. Models `FindStringSubmatch` returning `m` with `m[1]`. -/
def findGroup (re : RE) (s : String) : Option String :=
  (reFind re s.data).map (fun t => String.mk (t.2.2.getD []))

/-- Replace all non-overlapping leftmost matches, left to right; `tmpl`
builds the replacement from the capture (Go template expansion). Models
`regexp.ReplaceAllString`. -/
def replaceAllAux (re : RE) (tmpl : Option (List Char) → List Char) : Nat → List Char → List Char
  | 0, s => s
  | fuel + 1, s =>
    match reFind re s with
    | none => s
    | some (start, len, cap) =>
      s.take start ++ tmpl cap ++
        (if len = 0 then
          match s.drop start with
          | [] => []
          | c :: t => c :: replaceAllAux re tmpl fuel t
        else replaceAllAux re tmpl fuel (s.drop (start + len)))

/-- Replace all matches of `re` in `s`. -/
def replaceAll (re : RE) (tmpl : Option (List Char) → List Char) (s : List Char) : List Char :=
  replaceAllAux re tmpl (s.length + 1) s

/-- Replace every non-overlapping occurrence of `pat` (nonempty) by
`rep`, left to right. Models `strings.Replace(s, pat, rep, -1)`. -/
def replaceSub : Nat → List Char → List Char → List Char → List Char
  | 0, _, _, s => s
  | fuel + 1, pat, rep, s =>
    if pat.isPrefixOf s ∧ pat ≠ [] then rep ++ replaceSub fuel pat rep (s.drop pat.length)
    else
      match s with
      | [] => []
      | c :: t => c :: replaceSub fuel pat rep t

/-- Shorthand: literal regex from a string. -/
def strL (s : String) : RE := .lit s.data

/-- Shorthand: sequence of regexes. -/
def seqL : List RE → RE
  | [] => .lit []
  | [r] => r
  | r :: rs => .seq r (seqL rs)

/-! ## The six regular expressions of the source -/

/-- Go: `name="jschl_vc" value="(\w+)"`. -/
def jschlRE : RE :=
  seqL [strL "name=\"jschl_vc\" value=\"", .grp (.plusG isWordC), strL "\""]

/-- Go: `name="pass" value="(.+?)"`. -/
def passRE : RE :=
  seqL [strL "name=\"pass\" value=\"", .grp (.plusL isDotC), strL "\""]

/-- Go: `setTimeout\(function\(\){\s+(var s,t,o,p,b,r,e,a,k,i,n,g,f.+?\r?\n[\s\S]+?a\.value =.+?)\r?\n`. -/
def jsRE : RE :=
  seqL
    [strL "setTimeout(function()\x7b",
     .plusG isSpaceC,
     .grp (seqL
       [strL "var s,t,o,p,b,r,e,a,k,i,n,g,f",
        .plusL isDotC,
        .optC (fun c => c = '\r'),
        .cls (fun c => c = '\n'),
        .plusL isAnyC,
        strL "a.value =",
        .plusL isDotC]),
     .optC (fun c => c = '\r'),
     .cls (fun c => c = '\n')]

/-- Go: `a\.value = (.+ \+ t\.length).+`. -/
def jsReplace1RE : RE :=
  seqL [strL "a.value = ", .grp (.seq (.plusG isDotC) (strL " + t.length")), .plusG isDotC]

/-- Go: `\s{3,}[a-z](?: = |\.).+`. -/
def jsReplace2RE : RE :=
  seqL [.repG isSpaceC 3, .cls isLowerC, .alt2 (strL " = ") (strL "."), .plusG isDotC]

/-- Go: the class of newline, backslash and single quote. -/
def jsReplace3RE : RE := .cls isStripC

/-! ## HTTP data model

Only the parts of `net/http` that `roundtripper.go` touches are
embedded. `Header` is an association list with at most one entry per
(canonical) key, matching the Go `map[string][]string`. -/

/-- A URL fragment sufficient for the source: scheme, host (with optional
port), path and raw query. -/
structure URL where
  scheme : String
  host : String
  path : String
  rawQuery : String
deriving DecidableEq, Repr

/-- Models `url.URL.String()` for the URL fragment above. -/
def URL.render (u : URL) : String :=
  u.scheme ++ "://" ++ u.host ++ u.path ++
    (if u.rawQuery = "" then "" else "?" ++ u.rawQuery)

/-- Models `url.URL.ResolveReference` for a path-absolute reference with
no query or fragment (the only case used: `/cdn-cgi/l/chk_jschl`). -/
def resolvePathRef (base : URL) (p : String) : URL :=
  { scheme := base.scheme, host := base.host, path := p, rawQuery := "" }

/-- An HTTP cookie (only name and value matter to the source). -/
structure Cookie where
  name : String
  value : String
deriving DecidableEq, Repr

/-- Go `http.Header`: keys (assumed canonical) to value lists. -/
abbrev Header := List (String × List String)

/-- All values held for key `k` (first entry wins, as in a Go map).
Models `h[k]` / `Values` on `http.Header`. -/
def hvals (h : Header) (k : String) : List String :=
  match h with
  | [] => []
  | (k2, vs) :: t => if k2 = k then vs else hvals t k

/-- Models `http.Header.Get`: first value for the key, `""` if none. -/
def headerGet (h : Header) (k : String) : String :=
  match hvals h k with
  | [] => ""
  | v :: _ => v

/-- Models `http.Header.Add`: append `v` to the value list of the key. -/
def headerAdd (h : Header) (k v : String) : Header :=
  match h with
  | [] => [(k, [v])]
  | (k2, vs) :: t => if k2 = k then (k2, vs ++ [v]) :: t else (k2, vs) :: headerAdd t k v

/-- Models `http.Header.Set`: replace the values of the key by `[v]`. -/
def headerSet (h : Header) (k v : String) : Header :=
  match h with
  | [] => [(k, [v])]
  | (k2, vs) :: t => if k2 = k then (k, [v]) :: t else (k2, vs) :: headerSet t k v

/-- Inner loop of the header copy: `Add` each value of one key. -/
def addVals (h : Header) (k : String) (vs : List String) : Header :=
  vs.foldl (fun a v => headerAdd a k v) h

/-- The copy loop of `buildAnswerRequest`: for every key of `h`, `Add`
each of its values onto a fresh header. -/
def copyHeaders (h : Header) : Header :=
  h.foldl (fun acc p => addVals acc p.1 p.2) []

/-- All values for key `k` joined across every entry of `h` (needed to
specify the copy loop on arbitrary association lists; coincides with
`hvals` when keys are unique, as they are in a Go map). -/
def jvals (h : Header) (k : String) : List String :=
  match h with
  | [] => []
  | (k2, vs) :: t => (if k2 = k then vs else []) ++ jvals t k

/-- An HTTP request: the fields of `http.Request` the source reads or
writes. -/
structure Request where
  method : String
  url : URL
  header : Header
  body : Option String
deriving DecidableEq, Repr

/-- The upstream-visible part of an HTTP response: status code, the
`Server` header value, the (already read) body, and the cookies parsed
from `Set-Cookie` headers (`resp.Cookies()`). -/
structure RespCore where
  statusCode : Nat
  server : String
  body : String
  cookies : List Cookie
deriving DecidableEq, Repr

/-- A response together with `resp.Request`, the request that elicited
it (set by the transport). -/
structure Response where
  core : RespCore
  request : Request
deriving DecidableEq, Repr

/-- Error values produced by the pipeline. `message` below recovers the
exact Go error strings. -/
inductive Err where
  /-- the `errors.New("Unable to identify Cloudflare IUAM Javascript on the page")` value -/
  | notFound
  /-- the `errors.New("The unsafe Javascript ran for too long")` value -/
  | timeoutErr
  /-- an error returned by the otto VM (`vm.Run` or `ToFloat`) -/
  | vmErr (msg : String)
  /-- an error returned by the upstream transport -/
  | transportErr (msg : String)
deriving DecidableEq, Repr

/-- The Go error string carried by each `Err`. -/
def Err.message : Err → String
  | .notFound => "Unable to identify Cloudflare IUAM Javascript on the page"
  | .timeoutErr => "The unsafe Javascript ran for too long"
  | .vmErr m => m
  | .transportErr m => m

/-- Project the success of an `Except`. -/
def okPart {α : Type} (e : Except Err α) : Option α :=
  match e with
  | .ok a => some a
  | .error _ => none

/-- The cookie jar, at the interface granularity the source uses: a
stack of `SetCookies` writes. `cookiejar.Jar` itself is an external
package (out of scope per the spec); only "store per destination and
replay by host" is modelled. -/
abbrev Jar := List (URL × List Cookie)

/-- Models `jar.Cookies(u)`: the most recently stored cookies for the
host of `u`. -/
def jarCookies : Jar → URL → List Cookie
  | [], _ => []
  | (u2, cs) :: t, u => if u2.host = u.host then cs else jarCookies t u

/-- Models `jar.SetCookies(u, cs)`: record a write. -/
def setCookies (j : Jar) (u : URL) (cs : List Cookie) : Jar := (u, cs) :: j

/-! ## Query encoding and answer formatting -/

/-- Uppercase hex digit for `n < 16`. -/
def hexDigit (n : Nat) : Char :=
  if n < 10 then Char.ofNat (48 + n) else Char.ofNat (55 + n)

/-- Characters `url.QueryEscape` leaves unescaped. -/
def isUnreservedQ (c : Char) : Bool :=
  (c ≥ 'A' && c ≤ 'Z') || (c ≥ 'a' && c ≤ 'z') || (c ≥ '0' && c ≤ '9') ||
    c = '-' || c = '_' || c = '.' || c = '~'

/-- Models Go `url.QueryEscape`: spaces become `+`, unreserved bytes are
kept, every other byte becomes `%XX` (uppercase hex) on the UTF-8
encoding. -/
def queryEscape (s : String) : String :=
  String.mk (s.data.foldr
    (fun c acc =>
      (if isUnreservedQ c then [c]
       else if c = ' ' then ['+']
       else (utf8Bytes c).foldr (fun b a => '%' :: hexDigit (b / 16) :: hexDigit (b % 16) :: a) [])
      ++ acc) [])

/-- Insert a pair into a key-sorted list (stable). -/
def insertKV (p : String × String) : List (String × String) → List (String × String)
  | [] => [p]
  | q :: t => if charsLE p.1.data q.1.data then p :: q :: t else q :: insertKV p t

/-- Sort parameters by key, as `url.Values.Encode` does. -/
def sortKV (l : List (String × String)) : List (String × String) :=
  l.foldr insertKV []

/-- Join with `&`. -/
def joinAmp : List String → String
  | [] => ""
  | [s] => s
  | s :: t => s ++ "&" ++ joinAmp t

/-- Models `url.Values.Encode()` for single-valued parameters: sort by
key, escape keys and values, join with `&`. -/
def encodeValues (l : List (String × String)) : String :=
  joinAmp ((sortKV l).map (fun p => queryEscape p.1 ++ "=" ++ queryEscape p.2))

/-- Models `fmt.Sprintf("%.10f", q)` for a nonnegative rational: round
`q·10¹⁰` to the nearest integer (half away from zero) and print with ten
fractional digits. -/
def formatF10abs (q : ℚ) : String :=
  let scaled : Nat := (q.num.natAbs * 10000000000 * 2 + q.den) / (2 * q.den)
  let ip := scaled / 10000000000
  let fp := scaled % 10000000000
  let fpStr := natToChars fp
  String.mk (natToChars ip) ++ "." ++ String.mk (List.replicate (10 - fpStr.length) '0' ++ fpStr)

/-- Models `fmt.Sprintf("%.10f", q)`, the `float64` answer being
embedded as a rational. -/
def formatF10 (q : ℚ) : String :=
  if q < 0 then "-" ++ formatF10abs (-q) else formatF10abs q

/-! ## The challenge pipeline -/

/-- Error string of the `extractJS` failure. -/
def notFoundMsg : String := (Err.notFound).message

/-- Models `extractJS(body, domain)`: locate the challenge script with
`jsRE` (group 1), else fail; then apply, in order, `jsReplace1RE → "$1"`,
`jsReplace2RE → ""`, `strings.Replace` of `t.length` by
`strconv.Itoa(len(domain))`, and `jsReplace3RE → ""`. -/
def extractJS (body domain : String) : Except Err String :=
  match reFind jsRE body.data with
  | none => .error .notFound
  | some (_, _, cap) =>
    let js := cap.getD []
    let js := replaceAll jsReplace1RE (fun c => c.getD []) js
    let js := replaceAll jsReplace2RE (fun _ => []) js
    let js := replaceSub (js.length + 1) ("t.length").data (natToChars (goLen domain)) js
    let js := replaceAll jsReplace3RE (fun _ => []) js
    .ok (String.mk js)

/-- Outcome of running one script in the otto VM, resolving the race in
`evaluateJS` between the 5-second timer and the goroutine: either the
timer fired first (`timeout`, delivering the `errHalt` interrupt), or
`vm.Run` finished with an error, or it finished with a value that
`ToFloat` coerces (`value`) or fails to coerce (`coerceErr`). The VM
itself (package `otto`) is an external collaborator, so its behaviour is
an oracle parameter. -/
inductive VMOut where
  | timeout
  | runErr (msg : String)
  | value (q : ℚ)
  | coerceErr (msg : String)

/-- Models `executeUnsafeJS`: the `ottoReturn` sent on the `ret`
channel. On the interrupt panic the deferred `recover` sends the still
zero `num` with the explicit timeout error; on a `vm.Run` or `ToFloat`
error it sends that error. -/
def executeUnsafeJS : VMOut → ℚ × Option Err
  | .timeout => (0, some .timeoutErr)
  | .runErr m => (0, some (.vmErr m))
  | .value q => (q, none)
  | .coerceErr m => (0, some (.vmErr m))

/-- Models `evaluateJS`: the select loop waits for the single `ret`
message (after delivering the interrupt if the timer fired first) and
returns it; exactly one evaluation is attempted. -/
def evaluateJS (o : VMOut) : ℚ × Option Err := executeUnsafeJS o

/-- The three verification query parameters, in the order the source
sets them: `jschl_vc` and `pass` only when their hidden field matched,
then `jschl_answer`. -/
def answerParams (body : String) (answer : String) : List (String × String) :=
  (match findGroup jschlRE body with
   | some v => [("jschl_vc", v)]
   | none => []) ++
  (match findGroup passRE body with
   | some v => [("pass", v)]
   | none => []) ++
  [("jschl_answer", answer)]

/-- Models `buildAnswerRequest(resp)` with the VM behaviour `vm` as an
oracle: read the body, extract and evaluate the script, format the
answer with `%.10f`, resolve `/cdn-cgi/l/chk_jschl` against the original
URL, encode the parameters, build a GET request with no body, copy every
original header onto it, and set `Referer` to the original URL. -/
def buildAnswerRequest (vm : String → VMOut) (resp : Response) : Except Err Request :=
  let b := resp.core.body
  match extractJS b resp.request.url.host with
  | .error e => .error e
  | .ok js =>
    let p := evaluateJS (vm js)
    let answer := formatF10 p.1
    match p.2 with
    | some e => .error e
    | none =>
      let u := resolvePathRef resp.request.url "/cdn-cgi/l/chk_jschl"
      let u2 := { u with rawQuery := encodeValues (answerParams b answer) }
      .ok { method := "GET", url := u2,
            header := headerSet (copyHeaders resp.request.header) "Referer" (URL.render resp.request.url),
            body := none }

/-! ## The interceptor (`RoundTrip`) -/

/-- The default user agent of the source. -/
def UserAgent : String :=
  "Mozilla/5.0 (Windows NT 10.0; WOW64) AppleWebKit/537.36 (KHTML, like Gecko) Chrome/65.0.3325.181 Safari/537.36"

/-- Models `http.Request.AddCookie`: append `name=value` to the `Cookie`
header (joined to an existing value with `"; "`). -/
def addCookie (r : Request) (c : Cookie) : Request :=
  let s := c.name ++ "=" ++ c.value
  let old := headerGet r.header "Cookie"
  if old = "" then { r with header := headerSet r.header "Cookie" s }
  else { r with header := headerSet r.header "Cookie" (old ++ "; " ++ s) }

/-- Add each jar cookie to the request, in order. -/
def addCookies (r : Request) (cs : List Cookie) : Request := cs.foldl addCookie r

/-- The request preparation at the top of `RoundTrip`: default the
`User-Agent` header when the caller supplied none, then attach the
cookies the jar holds for the destination. -/
def reqPrep (jar : Jar) (r : Request) : Request :=
  let r1 :=
    if headerGet r.header "User-Agent" = "" then
      { r with header := headerSet r.header "User-Agent" UserAgent }
    else r
  addCookies r1 (jarCookies jar r1.url)

/-- The challenge trigger: status 503 and a `Server` header beginning
with `cloudflare`. -/
def isChallenge (c : RespCore) : Bool :=
  c.statusCode = 503 && hasPref c.server "cloudflare"

/-- Oracle for the external collaborators of one `RoundTrip` call: the
outcome of the first and (if reached) second upstream round trip, and
the VM behaviour on each script. An `Except.error` is a transport
error. -/
structure Oracle where
  up1 : Except String RespCore
  up2 : Except String RespCore
  vm : String → VMOut

/-- Result of one modelled `RoundTrip` call: the returned response or
error, the number of upstream round trips performed, and the final
cookie jar. -/
structure RTOut where
  result : Except Err Response
  calls : Nat
  jar : Jar

/-- Models `RoundTripper.RoundTrip`: prepare the request, perform the
first round trip, pass any non-challenge response through unchanged; on
a challenge, build the answer request (surfacing its error), wait (the
5-second sleep has no observable effect in this model), perform the
second round trip (surfacing its error), and store the cookies of the
second response in the jar when there is at least one. -/
def RoundTrip (jar : Jar) (o : Oracle) (r : Request) : RTOut :=
  match o.up1 with
  | .error e => { result := .error (.transportErr e), calls := 1, jar := jar }
  | .ok core =>
    if isChallenge core then
      match buildAnswerRequest o.vm { core := core, request := reqPrep jar r } with
      | .error e => { result := .error e, calls := 1, jar := jar }
      | .ok req =>
        match o.up2 with
        | .error e => { result := .error (.transportErr e), calls := 2, jar := jar }
        | .ok core2 =>
          if core2.cookies.isEmpty then
            { result := .ok { core := core2, request := req }, calls := 2, jar := jar }
          else
            { result := .ok { core := core2, request := req }, calls := 2,
              jar := setCookies jar req.url core2.cookies }
    else { result := .ok { core := core, request := reqPrep jar r }, calls := 1, jar := jar }

/-! ## Concrete fixtures

A miniature challenge page exercising every sanitization step: an
obfuscated preamble (with a block of brace-noise, single quotes and a
double-quoted string), two indented mutation lines, a final
`a.value = …` assignment with two `t.length` placeholders and a trailing
statement, and the two hidden fields. -/

/-- A single quote as a string. -/
def sq : String := String.mk [sqChar]

/-- The challenge script block of the fixture page. -/
def fixtureScript : String :=
  "setTimeout(function()\x7b\n" ++
  "  var s,t,o,p,b,r,e,a,k,i,n,g,f, zz=\x7b\"a\":+((1+2))\x7d, q=" ++ sq ++ "x" ++ sq ++ ";\n" ++
  "    g = 3;\n" ++
  "    g.a += 2;\n" ++
  "  a.value = zz.a + t.length + t.length; void 0;\n" ++
  "\x7d, 4000);\n"

/-- A full challenge page: script block plus the two hidden fields. -/
def fixtureBody : String :=
  "<html>CF challenge\n" ++ fixtureScript ++
  "<input type=\"hidden\" name=\"jschl_vc\" value=\"9cf4643af21c2f7a9e1f\"/>\n" ++
  "<input type=\"hidden\" name=\"pass\" value=\"1234567890.123-abc/xyz\"/>\n"

/-- The same page with the `jschl_vc` hidden field missing. -/
def fixtureBodyNoVc : String :=
  "<html>CF challenge\n" ++ fixtureScript ++
  "<input type=\"hidden\" name=\"pass\" value=\"1234567890.123-abc/xyz\"/>\n"

/-- The sanitized script `extractJS` produces from `fixtureBody` with
domain `example.com`. -/
def expectedJS : String :=
  "var s,t,o,p,b,r,e,a,k,i,n,g,f, zz=\x7b\"a\":+((1+2))\x7d, q=x;  zz.a + 11 + 11"

/-- The `jschl_vc` hidden-field value of the fixture page. -/
def vcFix : String := "9cf4643af21c2f7a9e1f"

/-- The `pass` hidden-field value of the fixture page. -/
def psFix : String := "1234567890.123-abc/xyz"

/-- Fixture original-request URL (host `example.com`, 11 bytes). -/
def urlFix : URL := { scheme := "http", host := "example.com", path := "/page", rawQuery := "" }

/-- Fixture original request: a POST with two headers and a body. -/
def reqFix : Request :=
  { method := "POST", url := urlFix,
    header := [("Accept", ["text/html", "app/x"]), ("X-Token", ["t1"])],
    body := some "z=1" }

/-- Fixture challenge response core (503 from cloudflare). -/
def coreChal : RespCore :=
  { statusCode := 503, server := "cloudflare-nginx", body := fixtureBody, cookies := [] }

/-- Fixture non-challenge response core (503 but not cloudflare). -/
def coreNon : RespCore :=
  { statusCode := 503, server := "nginx", body := "service down", cookies := [] }

/-- Fixture challenge response as seen by `buildAnswerRequest`. -/
def respChal : Response := { core := coreChal, request := reqFix }

/-- Fixture challenge response whose page lacks the `jschl_vc` field. -/
def respNoVc : Response :=
  { core := { coreChal with body := fixtureBodyNoVc }, request := reqFix }

/-- VM oracle answering `12345.6` on every script. -/
def vmVal : String → VMOut := fun _ => VMOut.value (mkRat 123456 10)

/-- VM oracle answering `42` on every script. -/
def vm42 : String → VMOut := fun _ => VMOut.value 42

/-- VM oracle that always times out. -/
def vmTO : String → VMOut := fun _ => VMOut.timeout

/-- Fallback request (used only to totalize a fixture projection). -/
def dummyReq : Request :=
  { method := "", url := { scheme := "", host := "", path := "", rawQuery := "" },
    header := [], body := none }

/-- The answer request built from the fixture challenge with `vm42`. -/
def reqBuilt : Request :=
  match buildAnswerRequest vm42 respChal with
  | .ok r => r
  | .error _ => dummyReq

/-- Oracle for the non-challenge pass-through witness. -/
def oC1 : Oracle := { up1 := .ok coreNon, up2 := .ok coreNon, vm := vmTO }

/-- Response core whose page holds no challenge script. -/
def coreNoScript : RespCore :=
  { statusCode := 503, server := "cloudflare", body := "just a page", cookies := [] }

/-- Oracle for the extraction-failure witness. -/
def oC2 : Oracle := { up1 := .ok coreNoScript, up2 := .ok coreNon, vm := vmTO }

/-- Oracle for the evaluation-timeout witness. -/
def oC5 : Oracle := { up1 := .ok coreChal, up2 := .ok coreNon, vm := vmTO }

/-! ## Helper lemmas on headers, request preparation and the jar -/

theorem hvals_add_same (h : Header) (k v : String) :
    hvals (headerAdd h k v) k = hvals h k ++ [v] := by
  induction h with
  | nil => simp [headerAdd, hvals]
  | cons p t ih =>
    obtain ⟨k2, vs⟩ := p
    by_cases hk : k2 = k
    · simp [headerAdd, hvals, hk]
    · simp [headerAdd, hvals, hk, ih]

theorem hvals_add_other (h : Header) (k v k2 : String) (hne : k2 ≠ k) :
    hvals (headerAdd h k v) k2 = hvals h k2 := by
  induction h with
  | nil => simp [headerAdd, hvals, Ne.symm hne]
  | cons p t ih =>
    obtain ⟨k3, vs⟩ := p
    by_cases hk : k3 = k
    · subst hk
      simp [headerAdd, hvals, Ne.symm hne]
    · simp [headerAdd, hvals, hk, ih]

theorem hvals_addVals_same (vs : List String) (h : Header) (k : String) :
    hvals (addVals h k vs) k = hvals h k ++ vs := by
  induction vs generalizing h with
  | nil => simp [addVals]
  | cons v t ih =>
    rw [addVals, List.foldl_cons]
    have h2 := ih (headerAdd h k v)
    rw [addVals] at h2
    rw [h2, hvals_add_same]
    simp

theorem hvals_addVals_other (vs : List String) (h : Header) (k k2 : String) (hne : k2 ≠ k) :
    hvals (addVals h k vs) k2 = hvals h k2 := by
  induction vs generalizing h with
  | nil => rfl
  | cons v t ih =>
    rw [addVals, List.foldl_cons]
    have h2 := ih (headerAdd h k v)
    rw [addVals] at h2
    rw [h2, hvals_add_other _ _ _ _ hne]

theorem hvals_copyFold (H : Header) (acc : Header) (k : String) :
    hvals (H.foldl (fun a p => addVals a p.1 p.2) acc) k = hvals acc k ++ jvals H k := by
  induction H generalizing acc with
  | nil => simp [jvals]
  | cons p t ih =>
    obtain ⟨k2, vs⟩ := p
    rw [List.foldl_cons, ih]
    by_cases hk : k2 = k
    · subst hk
      rw [hvals_addVals_same]
      simp [jvals]
    · rw [hvals_addVals_other _ _ _ _ (Ne.symm hk)]
      simp [jvals, hk]

theorem hvals_copyHeaders (H : Header) (k : String) :
    hvals (copyHeaders H) k = jvals H k := by
  rw [copyHeaders, hvals_copyFold]
  simp [hvals]

theorem jvals_nil_of_not_mem (H : Header) (k : String) (hk : k ∉ H.map Prod.fst) :
    jvals H k = [] := by
  induction H with
  | nil => rfl
  | cons p t ih =>
    rw [List.map_cons, List.mem_cons] at hk
    push_neg at hk
    obtain ⟨k2, vs⟩ := p
    simp only [jvals]
    rw [if_neg (Ne.symm hk.1), ih hk.2]
    rfl

theorem jvals_eq_hvals (H : Header) (k : String) (hnd : (H.map Prod.fst).Nodup) :
    jvals H k = hvals H k := by
  induction H with
  | nil => rfl
  | cons p t ih =>
    obtain ⟨k2, vs⟩ := p
    rw [List.map_cons, List.nodup_cons] at hnd
    by_cases hk : k2 = k
    · subst hk
      have hz : jvals t k2 = [] := jvals_nil_of_not_mem t k2 (by simpa using hnd.1)
      simp [jvals, hvals, hz]
    · simp [jvals, hvals, hk, ih hnd.2]

theorem hvals_set_same (h : Header) (k v : String) :
    hvals (headerSet h k v) k = [v] := by
  induction h with
  | nil => simp [headerSet, hvals]
  | cons p t ih =>
    obtain ⟨k2, vs⟩ := p
    by_cases hk : k2 = k
    · simp [headerSet, hvals, hk]
    · simp [headerSet, hvals, hk, ih]

theorem hvals_set_other (h : Header) (k v k2 : String) (hne : k2 ≠ k) :
    hvals (headerSet h k v) k2 = hvals h k2 := by
  induction h with
  | nil => simp [headerSet, hvals, Ne.symm hne]
  | cons p t ih =>
    obtain ⟨k3, vs⟩ := p
    by_cases hk : k3 = k
    · subst hk
      simp [headerSet, hvals, Ne.symm hne]
    · simp [headerSet, hvals, hk, ih]

theorem addCookies_url (cs : List Cookie) (q : Request) : (addCookies q cs).url = q.url := by
  induction cs generalizing q with
  | nil => rfl
  | cons c t ih =>
    rw [addCookies, List.foldl_cons]
    have h2 := ih (addCookie q c)
    rw [addCookies] at h2
    rw [h2]
    simp only [addCookie]
    split <;> rfl

theorem reqPrep_url (jar : Jar) (r : Request) : (reqPrep jar r).url = r.url := by
  unfold reqPrep
  rw [addCookies_url]
  split <;> rfl

theorem setCookies_ne (j : Jar) (u : URL) (cs : List Cookie) : setCookies j u cs ≠ j := by
  intro h
  have h2 := congrArg List.length h
  simp [setCookies] at h2

/-! ## Claim theorems -/

/-- C3: on the fixture challenge page with destination host `example.com`
(11 bytes), `extractJS` applies the sanitization substitutions in order
and returns exactly the expected script, in which every `t.length`
placeholder has been replaced by the literal `11`, no newline, backslash
or single-quote character remains, the left-hand side of the assignment and
the trailing statement are gone, and the arithmetic right-hand side is
retained. -/
theorem c3_fixture_sanitization :
    extractJS fixtureBody "example.com" = .ok expectedJS ∧
    containsSub expectedJS "t.length" = false ∧
    containsSub expectedJS "11" = true ∧
    expectedJS.data.all (fun c => !isStripC c) = true ∧
    containsSub expectedJS "a.value" = false ∧
    containsSub expectedJS "void 0" = false ∧
    containsSub expectedJS "zz.a + 11 + 11" = true :=
  ⟨by rfl, by rfl, by rfl, by rfl, by rfl, by rfl, by rfl⟩

/-- C4: whenever the challenge is solved (extraction and evaluation
succeed and both hidden fields are present), the URL of the answer
request is `/cdn-cgi/l/chk_jschl` resolved against the original URL, and
its query parameters are exactly `jschl_vc`, `pass` and `jschl_answer`,
the answer formatted with ten fractional digits; in particular an answer
of `12345.6` is formatted as `12345.6000000000`. -/
theorem c4_answer_url_and_params (vm : String → VMOut) (resp : Response) (num : ℚ)
    (vc ps js : String)
    (hE : extractJS resp.core.body resp.request.url.host = .ok js)
    (hvm : vm js = .value num)
    (hvc : findGroup jschlRE resp.core.body = some vc)
    (hps : findGroup passRE resp.core.body = some ps) :
    (∃ req, buildAnswerRequest vm resp = .ok req ∧
      req.url = { scheme := resp.request.url.scheme, host := resp.request.url.host,
                  path := "/cdn-cgi/l/chk_jschl",
                  rawQuery := encodeValues
                    [("jschl_answer", formatF10 num), ("jschl_vc", vc), ("pass", ps)] }) ∧
      formatF10 (mkRat 123456 10) = "12345.6000000000" := by
  have hb : buildAnswerRequest vm resp = .ok
      { method := "GET",
        url := { scheme := resp.request.url.scheme, host := resp.request.url.host,
                 path := "/cdn-cgi/l/chk_jschl",
                 rawQuery := encodeValues
                   [("jschl_answer", formatF10 num), ("jschl_vc", vc), ("pass", ps)] },
        header := headerSet (copyHeaders resp.request.header) "Referer" (URL.render resp.request.url),
        body := none } := by
    unfold buildAnswerRequest
    dsimp only
    rw [hE]
    dsimp only
    rw [hvm]
    simp only [evaluateJS, executeUnsafeJS, answerParams, hvc, hps]
    rfl
  exact ⟨⟨_, hb, rfl⟩, by decide⟩

/-- C4 witness: the fixture challenge solved with answer `12345.6`. -/
theorem c4_answer_url_and_params_witness :
    (okPart (buildAnswerRequest vmVal respChal)).map Request.url =
      some { scheme := "http", host := "example.com", path := "/cdn-cgi/l/chk_jschl",
             rawQuery := encodeValues
               [("jschl_answer", formatF10 (mkRat 123456 10)),
                ("jschl_vc", vcFix), ("pass", psFix)] } ∧
    formatF10 (mkRat 123456 10) = "12345.6000000000" := by
  obtain ⟨⟨req, hb, hu⟩, hf⟩ :=
    c4_answer_url_and_params vmVal respChal (mkRat 123456 10) vcFix psFix expectedJS
      (by rfl) rfl (by rfl) (by rfl)
  refine ⟨?_, hf⟩
  rw [hb]
  simp only [okPart, Option.map]
  rw [hu]
  rfl

/-- C7 counterexample: on a challenge page whose `jschl_vc` hidden field
is missing, building the answer request succeeds, but the verification
query of the URL does not carry `jschl_vc` at all — not even as an empty
parameter, contrary to the claim. -/
theorem c7_missing_vc_counterexample :
    findGroup jschlRE fixtureBodyNoVc = none ∧
    (okPart (buildAnswerRequest vm42 respNoVc)).map
      (fun q => containsSub q.url.rawQuery "jschl_vc") = some false :=
  ⟨by rfl, by rfl⟩

/-- C7 (amended): on a challenge page with the script block but no
`jschl_vc` hidden field, building the answer request still succeeds, and
the query of the verification URL is built from parameters that omit
`jschl_vc` entirely. -/
theorem c7_missing_vc_amended (vm : String → VMOut) (resp : Response) (num : ℚ) (js : String)
    (h0 : findGroup jschlRE resp.core.body = none)
    (hE : extractJS resp.core.body resp.request.url.host = .ok js)
    (hvm : vm js = .value num) :
    ∃ req, buildAnswerRequest vm resp = .ok req ∧
      (answerParams resp.core.body (formatF10 num)).lookup "jschl_vc" = none ∧
      req.url.rawQuery = encodeValues (answerParams resp.core.body (formatF10 num)) := by
  have hb : buildAnswerRequest vm resp = .ok
      { method := "GET",
        url := { scheme := resp.request.url.scheme, host := resp.request.url.host,
                 path := "/cdn-cgi/l/chk_jschl",
                 rawQuery := encodeValues (answerParams resp.core.body (formatF10 num)) },
        header := headerSet (copyHeaders resp.request.header) "Referer" (URL.render resp.request.url),
        body := none } := by
    unfold buildAnswerRequest
    dsimp only
    rw [hE]
    dsimp only
    rw [hvm]
    simp only [evaluateJS, executeUnsafeJS]
    rfl
  refine ⟨_, hb, ?_, rfl⟩
  simp only [answerParams, h0]
  cases hps : findGroup passRE resp.core.body with
  | none => simp [List.lookup]
  | some v => simp [List.lookup]

/-- C7 witness: the fixture page without the `jschl_vc` field. -/
theorem c7_missing_vc_amended_witness :
    (answerParams fixtureBodyNoVc (formatF10 (42 : ℚ))).lookup "jschl_vc" = none ∧
    (okPart (buildAnswerRequest vm42 respNoVc)).map (fun q => q.url.rawQuery) =
      some (encodeValues (answerParams fixtureBodyNoVc (formatF10 (42 : ℚ)))) := by
  obtain ⟨req, hb, hl, hq⟩ :=
    c7_missing_vc_amended vm42 respNoVc 42 expectedJS (by rfl) (by rfl) rfl
  refine ⟨hl, ?_⟩
  rw [hb]
  simp only [okPart, Option.map]
  rw [hq]
  rfl

/-- C8: whenever the answer request is built, every header of the
original request (each key with all of its values) is carried over, and
its `Referer` header is set to the full URL string of the original request.
Keys are unique in the original header, as they are in a Go map. -/
theorem c8_headers_copied_referer_set (vm : String → VMOut) (resp : Response) (req : Request)
    (hnd : (resp.request.header.map Prod.fst).Nodup)
    (hb : buildAnswerRequest vm resp = .ok req) :
    (∀ k, k ≠ "Referer" → hvals req.header k = hvals resp.request.header k) ∧
      hvals req.header "Referer" = [URL.render resp.request.url] := by
  have hh : req.header =
      headerSet (copyHeaders resp.request.header) "Referer" (URL.render resp.request.url) := by
    unfold buildAnswerRequest at hb
    dsimp only at hb
    split at hb
    · exact Except.noConfusion hb
    · split at hb
      · exact Except.noConfusion hb
      · injection hb with h
        rw [← h]
  constructor
  · intro k hk
    rw [hh, hvals_set_other _ _ _ _ hk, hvals_copyHeaders, jvals_eq_hvals _ _ hnd]
  · rw [hh, hvals_set_same]

/-- C8 witness: the `Accept` values of the fixture request survive the copy
and `Referer` is the original URL. -/
theorem c8_headers_copied_referer_set_witness :
    hvals reqBuilt.header "Referer" = [URL.render urlFix] ∧
    hvals reqBuilt.header "Accept" = ["text/html", "app/x"] := by
  have h := c8_headers_copied_referer_set vm42 respChal reqBuilt (by decide) (by rfl)
  refine ⟨h.2, ?_⟩
  rw [h.1 "Accept" (by decide)]
  rfl

/-- C10: whenever the answer request is built, it is a GET with an empty
body, regardless of the method of the original request. -/
theorem c10_answer_request_get_nobody (vm : String → VMOut) (resp : Response) (req : Request)
    (hb : buildAnswerRequest vm resp = .ok req) :
    req.method = "GET" ∧ req.body = none := by
  unfold buildAnswerRequest at hb
  dsimp only at hb
  split at hb
  · exact Except.noConfusion hb
  · split at hb
    · exact Except.noConfusion hb
    · injection hb with h
      rw [← h]
      exact ⟨rfl, rfl⟩

/-- C10 witness: the original POST of the fixture is replayed as a body-less
GET. -/
theorem c10_answer_request_get_nobody_witness :
    reqBuilt.method = "GET" ∧ reqBuilt.body = none ∧ respChal.request.method = "POST" := by
  have h := c10_answer_request_get_nobody vm42 respChal reqBuilt (by rfl)
  exact ⟨h.1, h.2, rfl⟩

/-- C1: when the first response is not a 503, or is a 503 whose `Server`
header does not begin with `cloudflare`, `RoundTrip` returns exactly
that response, makes no second upstream call, and leaves the jar
untouched. -/
theorem c1_non_challenge_passthrough (jar : Jar) (o : Oracle) (r : Request) (core : RespCore)
    (h1 : o.up1 = .ok core)
    (h2 : core.statusCode ≠ 503 ∨ hasPref core.server "cloudflare" = false) :
    RoundTrip jar o r =
      { result := .ok { core := core, request := reqPrep jar r }, calls := 1, jar := jar } := by
  have hch : isChallenge core = false := by
    rcases h2 with h | h
    · simp [isChallenge, h]
    · simp [isChallenge, h]
  unfold RoundTrip
  rw [h1]
  dsimp only
  rw [hch]
  rfl

/-- C1 witness: a 503 from a non-cloudflare server passes through after
one upstream call. -/
theorem c1_non_challenge_passthrough_witness :
    RoundTrip [] oC1 reqFix =
      { result := .ok { core := coreNon, request := reqPrep [] reqFix }, calls := 1, jar := [] } :=
  c1_non_challenge_passthrough [] oC1 reqFix coreNon rfl (Or.inr (by rfl))

/-- C2: when the challenge page holds no match for the `setTimeout`
script pattern, `extractJS` fails with the NotFound error, and
`RoundTrip` surfaces that error — returning no response, performing no
second round trip, and leaving the jar untouched. -/
theorem c2_extract_notfound_surfaced (jar : Jar) (o : Oracle) (r : Request) (core : RespCore)
    (h1 : o.up1 = .ok core) (h2 : isChallenge core = true)
    (h3 : reFind jsRE core.body.data = none) :
    extractJS core.body r.url.host = .error Err.notFound ∧
      RoundTrip jar o r = { result := .error Err.notFound, calls := 1, jar := jar } := by
  have hE : ∀ d : String, extractJS core.body d = .error Err.notFound := by
    intro d
    unfold extractJS
    rw [h3]
  refine ⟨hE _, ?_⟩
  unfold RoundTrip
  rw [h1]
  dsimp only
  rw [h2]
  unfold buildAnswerRequest
  dsimp only
  rw [reqPrep_url, hE r.url.host]
  rfl

/-- C2 witness: a cloudflare 503 whose body holds no script pattern. -/
theorem c2_extract_notfound_surfaced_witness :
    extractJS coreNoScript.body reqFix.url.host = .error Err.notFound ∧
      RoundTrip [] oC2 reqFix = { result := .error Err.notFound, calls := 1, jar := [] } :=
  c2_extract_notfound_surfaced [] oC2 reqFix coreNoScript rfl (by rfl) (by rfl)

/-- C5: when the sandbox race is won by the timer, the evaluator reports
the distinct, explicitly labelled timeout error rather than a value, and
`RoundTrip` surfaces it to the caller with no second round trip and no
retry. -/
theorem c5_timeout_surfaced (jar : Jar) (o : Oracle) (r : Request) (core : RespCore)
    (js : String)
    (h1 : o.up1 = .ok core) (h2 : isChallenge core = true)
    (h3 : extractJS core.body r.url.host = .ok js)
    (h4 : o.vm js = .timeout) :
    RoundTrip jar o r = { result := .error Err.timeoutErr, calls := 1, jar := jar } ∧
      evaluateJS VMOut.timeout = (0, some Err.timeoutErr) ∧
      Err.message Err.timeoutErr = "The unsafe Javascript ran for too long" := by
  refine ⟨?_, rfl, rfl⟩
  unfold RoundTrip
  rw [h1]
  dsimp only
  rw [h2]
  unfold buildAnswerRequest
  dsimp only
  rw [reqPrep_url, h3]
  dsimp only
  rw [h4]
  rfl

/-- C5 witness: the fixture challenge with a VM that always times out. -/
theorem c5_timeout_surfaced_witness :
    RoundTrip [] oC5 reqFix = { result := .error Err.timeoutErr, calls := 1, jar := [] } ∧
      evaluateJS VMOut.timeout = (0, some Err.timeoutErr) ∧
      Err.message Err.timeoutErr = "The unsafe Javascript ran for too long" :=
  c5_timeout_surfaced [] oC5 reqFix coreChal expectedJS rfl (by rfl) (by rfl) rfl

/-- C6: the cookie jar is left unchanged by `RoundTrip` unless a
challenge was detected, the answer request was built, the second round
trip succeeded and its response carried at least one cookie — in which
case the jar is actually mutated by that `SetCookies` write. -/
theorem c6_jar_mutation_frame (jar : Jar) (o : Oracle) (r : Request) :
    (RoundTrip jar o r).jar = jar ∨
      ∃ core req core2, o.up1 = .ok core ∧ isChallenge core = true ∧
        buildAnswerRequest o.vm { core := core, request := reqPrep jar r } = .ok req ∧
        o.up2 = .ok core2 ∧ core2.cookies ≠ [] ∧
        (RoundTrip jar o r).jar = setCookies jar req.url core2.cookies ∧
        setCookies jar req.url core2.cookies ≠ jar := by
  cases h1 : o.up1 with
  | error e =>
    left
    unfold RoundTrip
    rw [h1]
  | ok core =>
    cases h2 : isChallenge core with
    | false =>
      left
      unfold RoundTrip
      rw [h1]
      dsimp only
      rw [h2]
      rfl
    | true =>
      cases hb : buildAnswerRequest o.vm { core := core, request := reqPrep jar r } with
      | error e =>
        left
        unfold RoundTrip
        rw [h1]
        dsimp only
        rw [h2, hb]
        rfl
      | ok req =>
        cases h3 : o.up2 with
        | error e =>
          left
          unfold RoundTrip
          rw [h1]
          dsimp only
          rw [h2, hb]
          dsimp only
          rw [h3]
          rfl
        | ok core2 =>
          cases hcs : core2.cookies with
          | nil =>
            left
            unfold RoundTrip
            rw [h1]
            dsimp only
            rw [h2, hb]
            dsimp only
            rw [h3]
            dsimp only
            rw [hcs]
            rfl
          | cons c t =>
            right
            have hr : RoundTrip jar o r =
                { result := .ok { core := core2, request := req }, calls := 2,
                  jar := setCookies jar req.url core2.cookies } := by
              unfold RoundTrip
              rw [h1]
              dsimp only
              rw [h2, hb]
              dsimp only
              rw [h3]
              dsimp only
              rw [hcs]
              rfl
            exact ⟨core, req, core2, rfl, h2, hb, rfl, by simp [hcs],
              by rw [hr, hcs], setCookies_ne _ _ _⟩

/-- C9: `RoundTrip` never invokes the upstream transport more than
twice: the original call plus at most one challenge round trip. -/
theorem c9_at_most_two_roundtrips (jar : Jar) (o : Oracle) (r : Request) :
    (RoundTrip jar o r).calls ≤ 2 := by
  unfold RoundTrip
  split
  · show (1 : ℕ) ≤ 2
    decide
  · split
    · split
      · show (1 : ℕ) ≤ 2
        decide
      · split
        · show (2 : ℕ) ≤ 2
          decide
        · split
          · show (2 : ℕ) ≤ 2
            decide
          · show (2 : ℕ) ≤ 2
            decide
    · show (1 : ℕ) ≤ 2
      decide

end Cfrt
